import Mathlib

/-!
Verification of the atsamd repository fragment: the GMAC `TBFR127` register
reader (`src/pac/atsame54n/src/gmac/tbfr127.rs`) and the `adalogger` example
(`src/boards/feather_m0/examples/adalogger.rs`).

Machine words are embedded as `Nat`, with bit operations written explicitly;
the example's interrupt handler, poll loop and SD-card branch are embedded as
pure functions over an explicit state, with an action trace recording the
externally observable operations each code path performs.
-/

namespace Atsamd

/-- Modelled from the spec: the generic field `Reader` of the register-access
layer (the `crate::R` machinery that `tbfr127.rs` instantiates is not part of
the provided sources).  The spec defines
`Reader.extract(word) = (word >> o) & ((1 << w) - 1)`. -/
def extractField (word o w : Nat) : Nat :=
  (word >>> o) &&& ((1 <<< w) - 1)

/-- `R::nfrx` from `src/pac/atsame54n/src/gmac/tbfr127.rs`:
`NFRX_R::new((self.bits & 0xffff_ffff) as u32)`. -/
def nfrx (bits : Nat) : Nat :=
  bits &&& 0xffffffff

/-- Operator-facing messages the `adalogger` example writes over USB serial
(the format strings of the `usbserial_write!` calls, with their runtime
arguments). -/
inductive Msg where
  | noCardDetected
  | cardInserted
  | okCardSize
  | cardSizeBytes (n : Nat)
  | cardSizeErr (e : String)
  | volumeInfo (i : Nat) (ok : Bool)
  | listingRoot
  | found (x : String)
  | initErr (e : String)
  | done
deriving DecidableEq

/-- Externally observable operations performed by the example's code paths.
`csWrite` is a `usbserial_write!` call (serial write inside
`disable_interrupts`); `loadFlagRelaxed` / `storeFlag` are the relaxed atomic
accesses to `USB_DATA_RECEIVED`; `poll` / `readSerial` are the USB stack
calls made by the interrupt handler. -/
inductive Action where
  | delayMs (ms : Nat)
  | toggleRed
  | loadFlagRelaxed
  | storeFlag (b : Bool)
  | csWrite (m : Msg)
  | poll
  | readSerial (bufLen : Nat)
deriving DecidableEq

/-- The interrupt-shared statics of `adalogger.rs`: `USB_BUS`,
`USB_SERIAL` (opaque handles, modelled by presence) and the
`USB_DATA_RECEIVED` flag. -/
structure SharedState where
  usb_bus : Option Unit
  usb_serial : Option Unit
  usb_data_received : Bool
deriving DecidableEq

/-- Outcome of `serial.read(&mut buf)` in the handler: `Ok(count)` or any
error value. -/
inductive ReadResult where
  | ok (count : Nat)
  | err
deriving DecidableEq

/-- The `USB` interrupt handler of `adalogger.rs`:

```
USB_BUS.as_mut().map(|usb_dev| {
    USB_SERIAL.as_mut().map(|serial| {
        usb_dev.poll(&mut [serial]);
        let mut buf = [0u8; 16];
        if let Ok(count) = serial.read(&mut buf) {
            if count > 0 {
                USB_DATA_RECEIVED.store(true, atomic::Ordering::Relaxed);
            }
        }
    });
});
```

The result of the external `serial.read` call is the parameter `r`; the
returned list is the trace of external operations the handler performed. -/
def usbInterruptHandler (s : SharedState) (r : ReadResult) :
    SharedState × List Action :=
  match s.usb_bus with
  | none => (s, [])
  | some _ =>
    match s.usb_serial with
    | none => (s, [])
    | some _ =>
      match r with
      | .ok count =>
        if 0 < count then
          ({ s with usb_data_received := true },
           [Action.poll, Action.readSerial 16, Action.storeFlag true])
        else (s, [Action.poll, Action.readSerial 16])
      | .err => (s, [Action.poll, Action.readSerial 16])

/-- A sequence of handler invocations, one per element of `rs` (each element
being that invocation's `serial.read` outcome). -/
def runHandlers (s : SharedState) : List ReadResult → SharedState
  | [] => s
  | r :: rs => runHandlers (usbInterruptHandler s r).1 rs

/-- Whether an action is a serial-endpoint read (of any buffer size). -/
def Action.isSerialRead : Action → Bool
  | Action.readSerial _ => true
  | _ => false

/-- The main flow's wait for received data, from `adalogger.rs`:

```
while USB_DATA_RECEIVED.load(atomic::Ordering::Relaxed) == false {
    delay.delay_ms(250_u32);
    red_led.toggle();
}
```

`env j` is the value the `j`-th relaxed load observes (the flag is set
asynchronously by the interrupt handler); `i` is the index of the next load
and `fuel` bounds the unrolling.  Returns the trace of actions and whether
the loop has exited within `fuel` iterations. -/
def waitLoop (env : Nat → Bool) (i : Nat) : Nat → List Action × Bool
  | 0 => ([], false)
  | fuel + 1 =>
    if env i then ([Action.loadFlagRelaxed], true)
    else
      let rest := waitLoop env (i + 1) fuel
      (Action.loadFlagRelaxed :: Action.delayMs 250 ::
        Action.toggleRed :: rest.1, rest.2)

/-- Results supplied by the external SD-card driver to the `Ok` branch of
the `controller.device().init()` match in `adalogger.rs`:
`card_size_bytes()`, and per volume index 0..3 the `get_volume`,
`open_root_dir` and `iterate_dir` outcomes (driver errors as strings,
directory entries as their debug text). -/
structure SdEnv where
  cardSize : Except String Nat
  volume : Fin 4 → Except String Unit
  rootDir : Fin 4 → Except String Unit
  dirEntries : Fin 4 → Except String (List String)

/-- How the post-SD-init code ends within the modelled fuel: still spinning
in the final `loop { ... }` (the function of type `!` never returns), or
halted by a `panic!` from one of the `.unwrap()` calls of the `Ok` branch. -/
inductive Outcome where
  | stillLooping
  | panicked
deriving DecidableEq

/-- The `for i in 0..=3` volume loop of the `Ok` branch: per index, write
the `get_volume` result; when it is `Ok`, `open_root_dir(..).unwrap()`
(panics on a driver error), write the listing header, then `iterate_dir`
writes one `Found:` line per entry and its result is `.unwrap()`-ed. -/
def volumeLoop (env : SdEnv) : List (Fin 4) → List Action × Bool
  | [] => ([], true)
  | i :: is =>
    match env.volume i with
    | .error _ =>
      let rest := volumeLoop env is
      (Action.csWrite (Msg.volumeInfo i.val false) :: rest.1, rest.2)
    | .ok _ =>
      match env.rootDir i with
      | .error _ => ([Action.csWrite (Msg.volumeInfo i.val true)], false)
      | .ok _ =>
        match env.dirEntries i with
        | .error _ =>
          ([Action.csWrite (Msg.volumeInfo i.val true),
            Action.csWrite Msg.listingRoot], false)
        | .ok es =>
          let rest := volumeLoop env is
          (Action.csWrite (Msg.volumeInfo i.val true) ::
            Action.csWrite Msg.listingRoot ::
            (es.map (fun x => Action.csWrite (Msg.found x)) ++ rest.1),
           rest.2)

/-- The `Ok(_)` branch of the init match: `OK!/Card size...` header, the
`card_size_bytes()` result line, then the volume loop.  The `Bool` is
`false` when an `.unwrap()` panicked. -/
def sdOkBranch (env : SdEnv) : List Action × Bool :=
  let sizeLine :=
    match env.cardSize with
    | .ok n => Action.csWrite (Msg.cardSizeBytes n)
    | .error e => Action.csWrite (Msg.cardSizeErr e)
  let vols := volumeLoop env [0, 1, 2, 3]
  (Action.csWrite Msg.okCardSize :: sizeLine :: vols.1, vols.2)

/-- One iteration of the final idle loop per unit of fuel:
`loop { delay.delay_ms(1_000_u32); red_led.toggle(); }`. -/
def idleTrace : Nat → List Action
  | 0 => []
  | n + 1 => Action.delayMs 1000 :: Action.toggleRed :: idleTrace n

/-- The tail of `main` from `controller.device().init()` on: the
`Ok`/`Err` match (the `Err(e)` arm writes `Init err: {:?}!`), followed by
`usbserial_write!("Done!")` and the infinite idle loop — unless a panic in
the `Ok` branch halted execution first. -/
def mainAfterCardInit (initRes : Except String Unit) (env : SdEnv)
    (fuel : Nat) : List Action × Outcome :=
  let branch :=
    match initRes with
    | .error e => ([Action.csWrite (Msg.initErr e)], true)
    | .ok _ => sdOkBranch env
  if branch.2 then
    (branch.1 ++ Action.csWrite Msg.done :: idleTrace fuel,
     Outcome.stillLooping)
  else (branch.1, Outcome.panicked)

/-- `core::alloc::Layout` of the failing allocation. -/
structure Layout where
  size : Nat
  align : Nat
deriving DecidableEq

/-- Body of the `#[alloc_error_handler] fn oom(_: Layout) -> !`:
`loop {}` — an empty loop that exits under no amount of fuel. -/
def oomLoop : Nat → Option Unit
  | 0 => none
  | n + 1 => oomLoop n

/-- The allocation-error handler: it ignores the layout, performs no
externally visible action, and runs `oomLoop`. -/
def oom (_l : Layout) (fuel : Nat) : Option Unit × List Action :=
  (oomLoop fuel, [])

/-- The three interrupt-shared slots of `adalogger.rs`. -/
inductive Slot where
  | usbBus
  | usbSerial
  | dataReceivedFlag
deriving DecidableEq

/-- Which execution context performs an access. -/
inductive Ctx where
  | mainFlow
  | interruptHandler
deriving DecidableEq

/-- How an access is protected: a plain (non-atomic, unguarded) access, an
access inside `cortex_m::interrupt::free` (a CriticalSection), or a relaxed
atomic operation. -/
inductive Protection where
  | plain
  | criticalSection
  | atomicRelaxed
deriving DecidableEq

/-- One source-level access to a shared slot. -/
structure SlotAccess where
  slot : Slot
  ctx : Ctx
  protection : Protection
deriving DecidableEq

/-- Every access in `adalogger.rs` to `USB_BUS`, `USB_SERIAL` and
`USB_DATA_RECEIVED`, in source order:
1. `USB_SERIAL = Some(SerialPort::new(..))` — plain write in `main`'s setup;
2. `USB_BUS = Some(UsbDeviceBuilder::new(..)..build())` — plain write in
   `main`'s setup;
3. `USB_DATA_RECEIVED.load(atomic::Ordering::Relaxed)` — the wait loop;
4. `USB_SERIAL.as_mut().unwrap().write(..)` inside
   `disable_interrupts(|_| ..)` — the `usbserial_write!` macro;
5. `USB_BUS.as_mut()` — plain access in the `USB` interrupt handler;
6. `USB_SERIAL.as_mut()` — plain access in the `USB` interrupt handler;
7. `USB_DATA_RECEIVED.store(true, atomic::Ordering::Relaxed)` — handler. -/
def programSlotAccesses : List SlotAccess :=
  [ ⟨Slot.usbSerial, Ctx.mainFlow, Protection.plain⟩,
    ⟨Slot.usbBus, Ctx.mainFlow, Protection.plain⟩,
    ⟨Slot.dataReceivedFlag, Ctx.mainFlow, Protection.atomicRelaxed⟩,
    ⟨Slot.usbSerial, Ctx.mainFlow, Protection.criticalSection⟩,
    ⟨Slot.usbBus, Ctx.interruptHandler, Protection.plain⟩,
    ⟨Slot.usbSerial, Ctx.interruptHandler, Protection.plain⟩,
    ⟨Slot.dataReceivedFlag, Ctx.interruptHandler, Protection.atomicRelaxed⟩ ]

end Atsamd

open Atsamd

/-- C2: with the USB device and serial handles initialized, the handler
stores `true` into the data-received flag exactly when the serial read
returns `Ok(count)` with `count > 0`; a read error leaves the flag (indeed
the whole shared state) unchanged, and the handler still returns normally
(it is a total function producing a state, propagating no failure). -/
theorem usb_handler_sets_flag_iff_read_ok_positive
    (s : Atsamd.SharedState) (r : Atsamd.ReadResult)
    (hbus : s.usb_bus = some ()) (hser : s.usb_serial = some ()) :
    ((Action.storeFlag true ∈ (Atsamd.usbInterruptHandler s r).2) ↔
      (∃ count, r = Atsamd.ReadResult.ok count ∧ 0 < count)) ∧
    (r = Atsamd.ReadResult.err → (Atsamd.usbInterruptHandler s r).1 = s) := by
  constructor
  · constructor
    · intro hmem
      cases r with
      | ok count =>
        refine ⟨count, rfl, ?_⟩
        by_contra hc
        simp [Atsamd.usbInterruptHandler, hbus, hser, hc] at hmem
      | err =>
        simp [Atsamd.usbInterruptHandler, hbus, hser] at hmem
    · rintro ⟨count, rfl, hpos⟩
      simp [Atsamd.usbInterruptHandler, hbus, hser, hpos]
  · rintro rfl
    simp [Atsamd.usbInterruptHandler, hbus, hser]

/-- Witness for C2 at a concrete initialized state: a read of 3 bytes stores
the flag, and an erroring read leaves the state unchanged. -/
theorem usb_handler_sets_flag_iff_read_ok_positive_witness :
    ((Action.storeFlag true ∈
        (Atsamd.usbInterruptHandler ⟨some (), some (), false⟩
          (Atsamd.ReadResult.ok 3)).2) ↔
      (∃ count, Atsamd.ReadResult.ok 3 = Atsamd.ReadResult.ok count ∧
        0 < count)) ∧
    (Atsamd.ReadResult.ok 3 = Atsamd.ReadResult.err →
      (Atsamd.usbInterruptHandler ⟨some (), some (), false⟩
        (Atsamd.ReadResult.ok 3)).1 = ⟨some (), some (), false⟩) :=
  usb_handler_sets_flag_iff_read_ok_positive
    ⟨some (), some (), false⟩ (Atsamd.ReadResult.ok 3) rfl rfl

/-- C8: with both handles initialized, each handler invocation performs
exactly one `poll` and exactly one serial read, that read uses the
fixed-size 16-byte buffer, and the trace contains no other USB-stack
operations (nothing is queued or coalesced by the handler itself). -/
theorem usb_handler_one_poll_one_read
    (s : Atsamd.SharedState) (r : Atsamd.ReadResult)
    (hbus : s.usb_bus = some ()) (hser : s.usb_serial = some ()) :
    ((Atsamd.usbInterruptHandler s r).2.count Action.poll = 1) ∧
    ((Atsamd.usbInterruptHandler s r).2.countP Action.isSerialRead = 1) ∧
    (∀ n, Action.readSerial n ∈ (Atsamd.usbInterruptHandler s r).2 →
      n = 16) ∧
    (∀ a ∈ (Atsamd.usbInterruptHandler s r).2,
      a = Action.poll ∨ a = Action.readSerial 16 ∨
        a = Action.storeFlag true) := by
  cases r with
  | ok count =>
    by_cases hpos : 0 < count
    · refine ⟨?_, ?_, ?_, ?_⟩ <;>
        (try simp [Atsamd.usbInterruptHandler, hbus, hser, hpos, List.count,
          List.countP, List.countP.go]) <;> (try decide)
    · refine ⟨?_, ?_, ?_, ?_⟩ <;>
        (try simp [Atsamd.usbInterruptHandler, hbus, hser, hpos, List.count,
          List.countP, List.countP.go]) <;> (try decide)
  | err =>
    refine ⟨?_, ?_, ?_, ?_⟩ <;>
      (try simp [Atsamd.usbInterruptHandler, hbus, hser, List.count,
        List.countP, List.countP.go]) <;> (try decide)

/-- Witness for C8 at a concrete initialized state with a 5-byte read. -/
theorem usb_handler_one_poll_one_read_witness :
    ((Atsamd.usbInterruptHandler ⟨some (), some (), false⟩
        (Atsamd.ReadResult.ok 5)).2.count Action.poll = 1) ∧
    ((Atsamd.usbInterruptHandler ⟨some (), some (), false⟩
        (Atsamd.ReadResult.ok 5)).2.countP Action.isSerialRead = 1) := by
  have h := usb_handler_one_poll_one_read
    ⟨some (), some (), false⟩ (Atsamd.ReadResult.ok 5) rfl rfl
  exact ⟨h.1, h.2.1⟩

/-- C10: if either global USB handle is still `None` when the interrupt
fires, the handler is a total no-op: it performs no poll, no serial access,
no flag store, and leaves the shared state exactly as it was. -/
theorem usb_handler_noop_when_uninitialized
    (s : Atsamd.SharedState) (r : Atsamd.ReadResult)
    (h : s.usb_bus = none ∨ s.usb_serial = none) :
    Atsamd.usbInterruptHandler s r = (s, []) := by
  cases h with
  | inl hb =>
    simp [Atsamd.usbInterruptHandler, hb]
  | inr hs =>
    cases hb : s.usb_bus with
    | none => simp [Atsamd.usbInterruptHandler, hb]
    | some u => simp [Atsamd.usbInterruptHandler, hb, hs]

/-- Witness for C10: with no serial handle, a handler invocation on a
3-byte read outcome changes nothing and produces no actions. -/
theorem usb_handler_noop_when_uninitialized_witness :
    Atsamd.usbInterruptHandler ⟨some (), none, false⟩
      (Atsamd.ReadResult.ok 3) = (⟨some (), none, false⟩, []) :=
  usb_handler_noop_when_uninitialized ⟨some (), none, false⟩
    (Atsamd.ReadResult.ok 3) (Or.inr rfl)

/-- C1: a field reader with offset `o` and width `w` returns
`(word >>> o) &&& ((1 <<< w) - 1)`; in particular the NFRX reader
(offset 0, width 32) returns `word &&& 0xffffffff`, which coincides with
the generic extraction formula at offset 0, width 32. -/
theorem nfrx_matches_generic_extract (word : Nat) :
    Atsamd.nfrx word = Atsamd.extractField word 0 32 ∧
    Atsamd.nfrx word = word &&& 0xffffffff := by
  refine ⟨?_, rfl⟩
  show word &&& 0xffffffff = (word >>> 0) &&& ((1 <<< 32) - 1)
  rw [Nat.shiftRight_zero]
  norm_num [Nat.shiftLeft_eq]

/-- C9: since the NFRX field spans the whole 32-bit word, the `nfrx` accessor
is the identity on every value that fits in 32 bits: masking with
`0xffffffff` loses no information. -/
theorem nfrx_identity_on_u32 (word : Nat) (hw : word < 2 ^ 32) :
    Atsamd.nfrx word = word := by
  show word &&& 0xffffffff = word
  have h : (0xffffffff : Nat) = 2 ^ 32 - 1 := by norm_num
  rw [h]
  exact Nat.and_pow_two_sub_one_of_lt_two_pow hw

/-- Witness for C9 at the concrete register word `0xdeadbeef`. -/
theorem nfrx_identity_on_u32_witness :
    Atsamd.nfrx 0xdeadbeef = 0xdeadbeef :=
  nfrx_identity_on_u32 0xdeadbeef (by norm_num)

/-- Helper: a handler invocation never turns a `true` data-received flag
back to `false`. -/
theorem usbHandler_flag_stays_true (s : Atsamd.SharedState)
    (r : Atsamd.ReadResult) (h : s.usb_data_received = true) :
    (Atsamd.usbInterruptHandler s r).1.usb_data_received = true := by
  cases hb : s.usb_bus with
  | none => simp [Atsamd.usbInterruptHandler, hb, h]
  | some u =>
    cases hs : s.usb_serial with
    | none => simp [Atsamd.usbInterruptHandler, hb, hs, h]
    | some v =>
      cases r with
      | err => simp [Atsamd.usbInterruptHandler, hb, hs, h]
      | ok count =>
        by_cases hpos : 0 < count <;>
          simp [Atsamd.usbInterruptHandler, hb, hs, hpos, h]

/-- Helper: every action the wait loop emits is a relaxed flag load, a
250 ms delay, or a red-LED toggle. -/
theorem waitLoop_action_shape (env : Nat → Bool) (i fuel : Nat) :
    ∀ a ∈ (Atsamd.waitLoop env i fuel).1,
      a = Action.loadFlagRelaxed ∨ a = Action.delayMs 250 ∨
        a = Action.toggleRed := by
  induction fuel generalizing i with
  | zero =>
    intro a ha
    simp [Atsamd.waitLoop] at ha
  | succ n ih =>
    intro a ha
    by_cases hi : env i = true
    · simp [Atsamd.waitLoop, hi] at ha
      subst ha
      exact Or.inl rfl
    · simp [Atsamd.waitLoop, hi] at ha
      rcases ha with ha | ha | ha | ha
      · exact Or.inl ha
      · exact Or.inr (Or.inl ha)
      · exact Or.inr (Or.inr ha)
      · exact ih (i + 1) a ha

/-- Helper: the wait loop has exited within `fuel` polls starting at poll
index `i` exactly when some poll in that window observes the flag true. -/
theorem waitLoop_exit_iff (env : Nat → Bool) (i fuel : Nat) :
    (Atsamd.waitLoop env i fuel).2 = true ↔
      ∃ j, i ≤ j ∧ j < i + fuel ∧ env j = true := by
  induction fuel generalizing i with
  | zero =>
    simp [Atsamd.waitLoop]
    omega
  | succ n ih =>
    by_cases hi : env i = true
    · simp [Atsamd.waitLoop, hi]
      exact ⟨i, le_refl i, by omega, hi⟩
    · have hstep : (Atsamd.waitLoop env i (n + 1)).2 =
          (Atsamd.waitLoop env (i + 1) n).2 := by
        simp [Atsamd.waitLoop, hi]
      rw [hstep, ih (i + 1)]
      constructor
      · rintro ⟨j, hj1, hj2, hj3⟩
        exact ⟨j, by omega, by omega, hj3⟩
      · rintro ⟨j, hj1, hj2, hj3⟩
        refine ⟨j, ?_, by omega, hj3⟩
        rcases Nat.eq_or_lt_of_le hj1 with hij | hij
        · subst hij
          exact absurd hj3 hi
        · omega

/-- Helper: every action of the idle loop is a 1000 ms delay or a red-LED
toggle. -/
theorem idleTrace_shape (fuel : Nat) :
    ∀ a ∈ Atsamd.idleTrace fuel,
      a = Action.delayMs 1000 ∨ a = Action.toggleRed := by
  induction fuel with
  | zero =>
    intro a ha
    simp [Atsamd.idleTrace] at ha
  | succ n ih =>
    intro a ha
    simp [Atsamd.idleTrace] at ha
    rcases ha with ha | ha | ha
    · exact Or.inl ha
    · exact Or.inr ha
    · exact ih a ha

/-- C7: the main flow's wait for data is a poll loop each of whose actions
is a relaxed atomic load of the flag, a fixed 250 ms delay, or a LED
toggle — in particular it enters no CriticalSection and performs no store;
it exits only when some load observed the flag `true`, and if the flag
never reads `true` it never exits. -/
theorem wait_loop_relaxed_poll_until_true (env : Nat → Bool)
    (i fuel : Nat) :
    (∀ a ∈ (Atsamd.waitLoop env i fuel).1,
      a = Action.loadFlagRelaxed ∨ a = Action.delayMs 250 ∨
        a = Action.toggleRed) ∧
    ((Atsamd.waitLoop env i fuel).2 = true →
      ∃ j, i ≤ j ∧ j < i + fuel ∧ env j = true) ∧
    ((∀ j, env j = false) → (Atsamd.waitLoop env i fuel).2 = false) := by
  refine ⟨waitLoop_action_shape env i fuel, (waitLoop_exit_iff env i fuel).mp, ?_⟩
  intro hall
  rcases hex : (Atsamd.waitLoop env i fuel).2 with _ | _
  · rfl
  · rcases (waitLoop_exit_iff env i fuel).mp hex with ⟨j, _, _, hj⟩
    rw [hall j] at hj
    exact absurd hj (by simp)

/-- Witness for C7: with the flag never set, two unrolled iterations of the
wait loop do not exit. -/
theorem wait_loop_relaxed_poll_until_true_witness :
    (Atsamd.waitLoop (fun _ => false) 0 2).2 = false :=
  (wait_loop_relaxed_poll_until_true (fun _ => false) 0 2).2.2
    (fun _ => rfl)

/-- C4: the data-received flag is monotone — the only store any code path
performs on it writes `true`, once `true` it remains `true` across any
further sequence of handler invocations, and the main flow's wait loop
never stores to it (so never resets it after observing it). -/
theorem data_received_flag_monotone (s : Atsamd.SharedState)
    (r : Atsamd.ReadResult) (rs : List Atsamd.ReadResult) (b : Bool)
    (env : Nat → Bool) (i fuel : Nat) :
    (Action.storeFlag b ∈ (Atsamd.usbInterruptHandler s r).2 → b = true) ∧
    (s.usb_data_received = true →
      (Atsamd.runHandlers s rs).usb_data_received = true) ∧
    (∀ a ∈ (Atsamd.waitLoop env i fuel).1, ∀ c, a ≠ Action.storeFlag c) := by
  refine ⟨?_, ?_, ?_⟩
  · intro hmem
    cases hb : s.usb_bus with
    | none => simp [Atsamd.usbInterruptHandler, hb] at hmem
    | some u =>
      cases hs : s.usb_serial with
      | none => simp [Atsamd.usbInterruptHandler, hb, hs] at hmem
      | some v =>
        cases r with
        | err => simp [Atsamd.usbInterruptHandler, hb, hs] at hmem
        | ok count =>
          by_cases hpos : 0 < count
          · simp [Atsamd.usbInterruptHandler, hb, hs, hpos] at hmem
            exact hmem
          · simp [Atsamd.usbInterruptHandler, hb, hs, hpos] at hmem
  · intro hflag
    induction rs generalizing s with
    | nil => exact hflag
    | cons hd tl ih =>
      exact ih (Atsamd.usbInterruptHandler s hd).1
        (usbHandler_flag_stays_true s hd hflag)
  · intro a ha c
    rcases waitLoop_action_shape env i fuel a ha with h | h | h <;>
      simp [h]

/-- Witness for C4: from a state with the flag already set, two further
handler invocations (one of them an erroring read) leave it set. -/
theorem data_received_flag_monotone_witness :
    (Atsamd.runHandlers ⟨some (), some (), true⟩
      [Atsamd.ReadResult.err, Atsamd.ReadResult.ok 0]).usb_data_received
      = true :=
  (data_received_flag_monotone ⟨some (), some (), true⟩
    Atsamd.ReadResult.err [Atsamd.ReadResult.err, Atsamd.ReadResult.ok 0]
    true (fun _ => false) 0 0).2.1 rfl

/-- C5: when `controller.device().init()` returns an error, the main flow
writes the descriptive `Init err: {:?}!` message (carrying the driver
error) over the serial transport, then `Done!`, and enters the final idle
loop — it does not panic and, for every amount of fuel, is still looping
(each iteration a 1000 ms delay and a red-LED toggle, nothing else). -/
theorem sd_init_error_reports_and_idles (e : String) (env : Atsamd.SdEnv)
    (fuel : Nat) :
    (Atsamd.mainAfterCardInit (Except.error e) env fuel).1 =
      Action.csWrite (Msg.initErr e) :: Action.csWrite Msg.done ::
        Atsamd.idleTrace fuel ∧
    (Atsamd.mainAfterCardInit (Except.error e) env fuel).2 =
      Atsamd.Outcome.stillLooping ∧
    Atsamd.idleTrace (fuel + 1) =
      Action.delayMs 1000 :: Action.toggleRed :: Atsamd.idleTrace fuel ∧
    (∀ a ∈ Atsamd.idleTrace fuel,
      a = Action.delayMs 1000 ∨ a = Action.toggleRed) := by
  exact ⟨rfl, rfl, rfl, idleTrace_shape fuel⟩

/-- Witness for C5 at a concrete error, environment and fuel. -/
theorem sd_init_error_reports_and_idles_witness :
    (Atsamd.mainAfterCardInit (Except.error "Timeout")
      ⟨Except.ok 0, fun _ => Except.ok (), fun _ => Except.ok (),
        fun _ => Except.ok []⟩ 1).1 =
      [Action.csWrite (Msg.initErr "Timeout"), Action.csWrite Msg.done,
        Action.delayMs 1000, Action.toggleRed] :=
  (sd_init_error_reports_and_idles "Timeout"
    ⟨Except.ok 0, fun _ => Except.ok (), fun _ => Except.ok (),
      fun _ => Except.ok []⟩ 1).1

/-- C6: the allocation-error handler diverges for every failing `Layout`:
under no amount of fuel does its `loop \x7b\x7d` body ever exit, and it
performs no externally visible action whatsoever (no recovery, no reset). -/
theorem oom_diverges_forever (lay : Atsamd.Layout) (fuel : Nat) :
    (Atsamd.oom lay fuel).1 = none ∧ (Atsamd.oom lay fuel).2 = [] := by
  constructor
  · show Atsamd.oomLoop fuel = none
    induction fuel with
    | zero => rfl
    | succ n ih => exact ih
  · rfl

/-- C3 counterexample: the claim that every access to the shared slots is
inside a CriticalSection or a hardware-atomic primitive is false — the
interrupt handler's `USB_SERIAL.as_mut()` access is a plain access,
outside any CriticalSection, and not an atomic primitive. -/
theorem shared_access_claim_counterexample :
    (⟨Atsamd.Slot.usbSerial, Atsamd.Ctx.interruptHandler,
        Atsamd.Protection.plain⟩ : Atsamd.SlotAccess) ∈
      Atsamd.programSlotAccesses ∧
    ¬ (Atsamd.Protection.plain = Atsamd.Protection.criticalSection ∨
        Atsamd.Protection.plain = Atsamd.Protection.atomicRelaxed) ∧
    ¬ (∀ a ∈ Atsamd.programSlotAccesses,
        a.protection = Atsamd.Protection.criticalSection ∨
          a.protection = Atsamd.Protection.atomicRelaxed) := by
  decide

/-- C3 (amended): every access to the data-received flag is a relaxed
atomic, the flag is the only slot accessed with relaxed atomics, the main
flow's post-setup serial writes run inside a CriticalSection, but the
setup-phase writes to the two USB handles and the interrupt handler's own
accesses to them are plain accesses outside any CriticalSection. -/
theorem shared_access_protection_amended :
    (∀ a ∈ Atsamd.programSlotAccesses,
      a.slot = Atsamd.Slot.dataReceivedFlag →
        a.protection = Atsamd.Protection.atomicRelaxed) ∧
    (∀ a ∈ Atsamd.programSlotAccesses,
      a.protection = Atsamd.Protection.atomicRelaxed →
        a.slot = Atsamd.Slot.dataReceivedFlag) ∧
    (⟨Atsamd.Slot.usbSerial, Atsamd.Ctx.mainFlow,
        Atsamd.Protection.criticalSection⟩ : Atsamd.SlotAccess) ∈
      Atsamd.programSlotAccesses ∧
    Atsamd.programSlotAccesses.filter
        (fun a => a.protection == Atsamd.Protection.plain) =
      [⟨Atsamd.Slot.usbSerial, Atsamd.Ctx.mainFlow,
          Atsamd.Protection.plain⟩,
        ⟨Atsamd.Slot.usbBus, Atsamd.Ctx.mainFlow,
          Atsamd.Protection.plain⟩,
        ⟨Atsamd.Slot.usbBus, Atsamd.Ctx.interruptHandler,
          Atsamd.Protection.plain⟩,
        ⟨Atsamd.Slot.usbSerial, Atsamd.Ctx.interruptHandler,
          Atsamd.Protection.plain⟩] := by
  decide

/-- Witness for the amended C3: the wait loop's flag load is indeed
classified as a relaxed atomic access. -/
theorem shared_access_protection_amended_witness :
    (⟨Atsamd.Slot.dataReceivedFlag, Atsamd.Ctx.mainFlow,
        Atsamd.Protection.atomicRelaxed⟩ :
      Atsamd.SlotAccess).protection = Atsamd.Protection.atomicRelaxed :=
  shared_access_protection_amended.1
    ⟨Atsamd.Slot.dataReceivedFlag, Atsamd.Ctx.mainFlow,
      Atsamd.Protection.atomicRelaxed⟩ (by decide) rfl
